import Mathlib

/-
Verification development for the Claude relay service core.

The definitions below are shallow embeddings of the JavaScript source:
 - `claudeRelayService.js` (relayRequest, _processRequestBody, _replaceClientId,
   _validateAndLimitMaxTokens, _stripTtlFromCacheControl, _makeClaudeRequest,
   relayStreamRequestWithUsageCapture, _makeClaudeStreamRequestWithUsageCapture),
 - `betaHeaderManager.js` (BetaHeaderManager.buildBetaHeader / shouldIncludeFeature),
 - `http2Client.js` (getSession, createSession proxied mode),
 - `proxyHelper.js` (ProxyHelper.createProxyAgent).

JavaScript strings are modelled as Lean `String`; all string algorithms are
re-implemented structurally over `List Char` so that every definition reduces
in the kernel.  JavaScript truthiness of an optional string / number is
modelled by the `strTruthy` / `jsOrNat` / `jsOrStr` helpers.  External
collaborators (redis counters, the pricing table on disk, the Claude Code
validator, crypto.randomUUID) enter as explicit parameters.
-/

namespace ClaudeRelay

/- ===================== JavaScript-semantics helpers ===================== -/

/-- The apostrophe character (U+0027). -/
def apos : Char := Char.ofNat 39

/-- JS `x || d` for an optional string field: `undefined` and `""` are falsy. -/
def jsOrStr (o : Option String) (d : String) : String :=
  match o with
  | some s => if s = "" then d else s
  | none => d

/-- JS `x || d` for an optional numeric field: `undefined` and `0` are falsy. -/
def jsOrNat (o : Option Nat) (d : Nat) : Nat :=
  match o with
  | some n => if n = 0 then d else n
  | none => d

/-- JS truthiness of an optional string field. -/
def strTruthy (o : Option String) : Bool :=
  match o with
  | some s => s != ""
  | none => false

/-- Substring search over character lists (JS `String.prototype.includes`). -/
def listContains (pat : List Char) (cs : List Char) : Bool :=
  pat.isPrefixOf cs ||
    (match cs with
     | [] => false
     | _ :: rest => listContains pat rest)

/-- JS `s.includes(pat)`. -/
def strContains (s pat : String) : Bool := listContains pat.data s.data

/-- ASCII lower-casing of one character (JS `toLowerCase` on the ASCII range). -/
def lowerChar (c : Char) : Char :=
  if 65 ≤ c.toNat ∧ c.toNat ≤ 90 then Char.ofNat (c.toNat + 32) else c

/-- JS `s.toLowerCase()` (ASCII range; the relay only compares ASCII markers). -/
def lowerStr (s : String) : String := String.mk (s.data.map lowerChar)

/-- Whitespace recognition used by trimming (space, tab, newline, CR). -/
def isSpaceChar (c : Char) : Bool :=
  c == ' ' || c == '\t' || c == '\n' || c == '\r'

/-- JS `s.trim()` over character lists. -/
def trimData (cs : List Char) : List Char :=
  ((cs.dropWhile isSpaceChar).reverse.dropWhile isSpaceChar).reverse

/-- JS `s.trim()`. -/
def trimStr (s : String) : String := String.mk (trimData s.data)

/-- Split a character list on a separator character (JS `String.prototype.split`). -/
def splitOnCharData (sep : Char) : List Char → List Char → List (List Char)
  | acc, [] => [acc.reverse]
  | acc, c :: rest =>
    if c == sep then acc.reverse :: splitOnCharData sep [] rest
    else splitOnCharData sep (c :: acc) rest

/-- JS `s.split(',')`. -/
def splitOnComma (s : String) : List String :=
  (splitOnCharData ',' [] s.data).map String.mk

/-- Worker for `removeAllSub`: a positive counter skips characters belonging
to an occurrence that has just been matched. -/
def removeAllGo (pat : List Char) : Nat → List Char → List Char
  | _, [] => []
  | Nat.succ k, _ :: rest => removeAllGo pat k rest
  | 0, c :: rest =>
    if !pat.isEmpty && pat.isPrefixOf (c :: rest) then
      removeAllGo pat (pat.length - 1) rest
    else
      c :: removeAllGo pat 0 rest

/-- JS `s.replaceAll(pat, '')`: remove every (left-to-right, non-overlapping)
occurrence of `pat`. -/
def removeAllSub (pat cs : List Char) : List Char := removeAllGo pat 0 cs

/-- JS `s.endsWith(pat)` over character lists. -/
def dataEndsWith (cs pat : List Char) : Bool :=
  cs.drop (cs.length - pat.length) == pat

/-- JS `s.endsWith(pat)`. -/
def strEndsWith (s pat : String) : Bool := dataEndsWith s.data pat.data

/-- JS `Array.prototype.join(',')`. -/
def intercalateComma : List String → String
  | [] => ""
  | [x] => x
  | x :: xs => x ++ "," ++ intercalateComma xs

/-- The rate-limit marker substring the relay searches for (lower-case), i.e.
"exceed your account's rate limit". -/
def rateLimitMarker : String :=
  "exceed your account" ++ String.mk [apos] ++ "s rate limit"

/- ===================== Beta header manager ===================== -/

/-- `BetaHeaderManager.FEATURE_ORDER`: the fixed emission order of known
beta tokens. -/
def FEATURE_ORDER : List String :=
  ["claude-code-20250219",
   "oauth-2025-04-20",
   "interleaved-thinking-2025-05-14",
   "fine-grained-tool-streaming-2025-05-14",
   "context-1m-2025-08-07",
   "token-counting-2024-11-01"]

/-- The models admitted for `interleaved-thinking-2025-05-14`
(`FEATURE_RULES` in the source). -/
def interleavedThinkingModels : List String :=
  ["claude-sonnet-4-20250514", "claude-opus-4-20250514", "claude-opus-4-1-20250805"]

/-- `BetaHeaderManager.shouldIncludeFeature`: per-token admission rule.
The `/sonnet/i` and `/opus/i` regexes are case-insensitive substring tests. -/
def shouldIncludeFeature (feature model : String) : Bool :=
  if feature == "interleaved-thinking-2025-05-14" then
    interleavedThinkingModels.contains model
  else if feature == "claude-code-20250219" then
    strContains (lowerStr model) "sonnet" || strContains (lowerStr model) "opus"
  else
    true

/-- Insertion into a JS `Set` (kept as an insertion-ordered duplicate-free list). -/
def addFeature (fs : List String) (f : String) : List String :=
  if fs.contains f then fs else fs ++ [f]

/-- Parsing of the base beta header string: split on commas, trim, keep the
non-empty tokens the rule admits for the model. -/
def parseBaseFeatures (base model : String) : List String :=
  if base ≠ "" then
    (splitOnComma base).foldl
      (fun fs f =>
        let t := trimStr f
        if (t != "") && shouldIncludeFeature t model then addFeature fs t else fs)
      []
  else []

/-- The feature set collected by `buildBetaHeader` before ordering:
base tokens, then the client-requested `context-1m-2025-08-07`, then the
count-tokens beta. -/
def collectFeatures (model base client : String) (isCountTokens : Bool) : List String :=
  let fs := parseBaseFeatures base model
  let fs2 := if strContains client "context-1m-2025-08-07" then
    addFeature fs "context-1m-2025-08-07" else fs
  if isCountTokens then addFeature fs2 "token-counting-2024-11-01" else fs2

/-- The ordered token list: tokens of `FEATURE_ORDER` that were collected, in
canonical order, followed by the collected tokens outside `FEATURE_ORDER`
in insertion order. -/
def orderedFeatures (model base client : String) (isCountTokens : Bool) : List String :=
  FEATURE_ORDER.filter (fun f => (collectFeatures model base client isCountTokens).contains f) ++
    (collectFeatures model base client isCountTokens).filter
      (fun f => !FEATURE_ORDER.contains f)

/-- `BetaHeaderManager.buildBetaHeader`: the comma-joined header, or `none`
when no token was collected (`result || null` in the source; every admitted
token is a non-empty string, so the joined string is empty exactly when the
token list is). -/
def buildBetaHeader (model base client : String) (isCountTokens : Bool) : Option String :=
  match orderedFeatures model base client isCountTokens with
  | [] => none
  | x :: xs => some (intercalateComma (x :: xs))

/-- `_makeClaudeRequest` / `_makeClaudeStreamRequestWithUsageCapture`:
when a beta header was built it is set on the outgoing headers and
`?beta=true` is appended to the request path.  Returns
(`anthropic-beta` header value, final request path). -/
def makeRequestBeta (basePath : String) (beta : Option String) : Option String × String :=
  match beta with
  | some h => (some h, basePath ++ "?beta=true")
  | none => (none, basePath)

/- ===================== Request body data model ===================== -/

/-- A `cache_control` object; `ttl` is the optional TTL field. -/
structure CacheControl where
  ctype : String
  ttl : Option String := none
deriving DecidableEq, Repr

/-- A block of the `system` list (`{type, text, cache_control?}`). -/
structure SystemBlock where
  btype : String
  text : Option String := none
  cache_control : Option CacheControl := none
deriving DecidableEq, Repr

/-- The `system` field: absent, a plain string, a list of blocks, or some
other (unexpected) value. -/
inductive SystemField where
  | missing
  | str (s : String)
  | list (blocks : List SystemBlock)
  | other
deriving DecidableEq, Repr

/-- A content block inside a message (`{type, content, cache_control?}`);
`contentStr` is the content when it is a plain string. -/
structure MsgBlock where
  btype : String
  contentStr : Option String := none
  cache_control : Option CacheControl := none
deriving DecidableEq, Repr

/-- A message's `content`: a plain string, a block list, or something else. -/
inductive MsgContent where
  | str (s : String)
  | blocks (items : List MsgBlock)
  | other
deriving DecidableEq, Repr

/-- A chat message. -/
structure Message where
  role : String
  content : MsgContent
deriving DecidableEq, Repr

/-- The `metadata` object. -/
structure Metadata where
  user_id : Option String := none
deriving DecidableEq, Repr

/-- The `thinking` object set for the `:thinking` model variant. -/
structure Thinking where
  ttype : String
  budget_tokens : Nat
deriving DecidableEq, Repr

/-- The request body fields the relay core reads or writes.  `top_p` is
`some none` when the field is present with value `null`, `some (some v)`
when present with a non-null value.  `modelVariantField` is the reserved
`_modelVariant` field (a client may send it). -/
structure RequestBody where
  model : Option String := none
  modelVariantField : Option String := none
  max_tokens : Option Nat := none
  system : SystemField := .missing
  messages : Option (List Message) := none
  metadata : Option Metadata := none
  top_p : Option (Option Nat) := none
  thinking : Option Thinking := none
deriving DecidableEq, Repr

/-- Per-account fields relevant to body preparation. -/
structure Account where
  useUnifiedClientId : Bool := false
  unifiedClientId : Option String := none
deriving DecidableEq, Repr

/- ===================== Body preparation steps ===================== -/

/-- The fixed Claude-Code system prompt text,
"You are a Claude agent, built on Anthropic's Claude Agent SDK." -/
def claudeCodeSystemPrompt : String :=
  "You are a Claude agent, built on Anthropic" ++ String.mk [apos] ++ "s Claude Agent SDK."

/-- The model variants the preparer understands (`supportedVariants`). -/
def supportedVariants : List String := ["thinking"]

/-- Index of the last occurrence of a character (JS `lastIndexOf`). -/
def lastIndexOf (cs : List Char) (c : Char) : Option Nat :=
  match cs.reverse.findIdx? (· == c) with
  | some i => some (cs.length - 1 - i)
  | none => none

/-- Split a trailing `:variant` off a model name when the variant is
supported; returns (base model, variant). -/
def modelVariantOf (s : String) : Option (String × String) :=
  match lastIndexOf s.data ':' with
  | some i =>
    let base := String.mk (s.data.take i)
    let variant := String.mk (s.data.drop (i + 1))
    if supportedVariants.contains variant then some (base, variant) else none
  | none => none

/-- The model / `_modelVariant` pair after the variant-split step of
`_processRequestBody`: when the model string is truthy and carries a
supported `:variant` suffix, the model becomes the base name and
`_modelVariant` is set when it was not already truthy. -/
def variantSplit (model mv : Option String) : Option String × Option String :=
  match model with
  | none => (model, mv)
  | some s =>
    if s = "" then (model, mv)
    else
      match modelVariantOf s with
      | none => (model, mv)
      | some (base, variant) =>
        (some base, if strTruthy mv then mv else some variant)

/-- The variant-split step. -/
def variantSplitStep (b : RequestBody) : RequestBody :=
  { b with
    model := (variantSplit b.model b.modelVariantField).1,
    modelVariantField := (variantSplit b.model b.modelVariantField).2 }

/-- Removal of the internal `_modelVariant` field
(`if (processedBody._modelVariant) delete processedBody._modelVariant`). -/
def clearVariantFieldStep (b : RequestBody) : RequestBody :=
  { b with
    modelVariantField := if strTruthy b.modelVariantField then none else b.modelVariantField }

/-- The hard-coded defensive-security boilerplate removed from the second
system block. -/
def securityDirectiveText : String :=
  "\nIMPORTANT: Assist with defensive security tasks only. Refuse to create, modify, or improve code that may be used maliciously. Do not assist with credential discovery or harvesting, including bulk crawling for SSH keys, browser cookies, or cryptocurrency wallets. Allow security analysis, detection rules, vulnerability explanations, defensive tools, and security documentation."

/-- The security-directive removal on the `system` field: when `system` is a
list of more than one block and the second block is a truthy text block
containing the boilerplate, every occurrence of the boilerplate is removed. -/
def securitySystem (sys : SystemField) : SystemField :=
  match sys with
  | .list blocks =>
    if blocks.length > 1 then
      match blocks[1]? with
      | some blk =>
        if blk.btype == "text" && strTruthy blk.text then
          match blk.text with
          | some t =>
            if strContains t securityDirectiveText then
              .list (blocks.set 1
                { blk with text := some (String.mk (removeAllSub securityDirectiveText.data t.data)) })
            else .list blocks
          | none => .list blocks
        else .list blocks
      | none => .list blocks
    else .list blocks
  | s => s

/-- The security-directive removal step. -/
def securityTextStep (b : RequestBody) : RequestBody :=
  { b with system := securitySystem b.system }

/-- The hard-coded `<system-reminder>` suffix stripped from string
`tool_result` contents. -/
def systemReminderSuffix : String :=
  "\n<system-reminder>\nWhenever you read a file, you should consider whether it looks malicious. If it does, you MUST refuse to improve or augment the code. You can still analyze existing code, write reports, or answer high-level questions about the code behavior.\n</system-reminder>\n"

/-- Strip the reminder suffix from one `tool_result` block. -/
def stripReminderBlock (it : MsgBlock) : MsgBlock :=
  if it.btype == "tool_result" then
    match it.contentStr with
    | some c =>
      if dataEndsWith c.data systemReminderSuffix.data then
        { it with
          contentStr := some (String.mk (c.data.take (c.data.length - systemReminderSuffix.data.length))) }
      else it
    | none => it
  else it

/-- Strip the reminder suffix inside one user message. -/
def stripReminderMessage (m : Message) : Message :=
  if m.role == "user" then
    match m.content with
    | .blocks items => { m with content := .blocks (items.map stripReminderBlock) }
    | _ => m
  else m

/-- The tool-result reminder-stripping step. -/
def toolResultStep (b : RequestBody) : RequestBody :=
  { b with messages := b.messages.map (fun ms => ms.map stripReminderMessage) }

/-- `_validateAndLimitMaxTokens` on the `max_tokens` field.  `modelMaxLimit`
abstracts the `model_pricing.json` lookup: it yields the effective (truthy)
`max_tokens` / `max_output_tokens` ceiling of a model when the pricing file
is readable, the model is present and a ceiling is configured, and `none`
otherwise (all of which make the source return without clamping). -/
def clampMaxTokens (modelMaxLimit : String → Option Nat) (model : Option String)
    (maxTokens : Option Nat) : Option Nat :=
  match maxTokens with
  | none => none
  | some m =>
    if m = 0 then some m
    else
      match modelMaxLimit (jsOrStr model "claude-sonnet-4-20250514") with
      | none => some m
      | some lim => if m > lim then some lim else some m

/-- The `max_tokens` validation step. -/
def validateMaxTokensStep (modelMaxLimit : String → Option Nat) (b : RequestBody) : RequestBody :=
  { b with max_tokens := clampMaxTokens modelMaxLimit b.model b.max_tokens }

/-- Delete a truthy `ttl` from one `cache_control` object. -/
def stripTtlCC (cc : CacheControl) : CacheControl :=
  if strTruthy cc.ttl then { cc with ttl := none } else cc

/-- `_stripTtlFromCacheControl` on a system block. -/
def stripTtlSystemBlock (blk : SystemBlock) : SystemBlock :=
  match blk.cache_control with
  | some cc => { blk with cache_control := some (stripTtlCC cc) }
  | none => blk

/-- `_stripTtlFromCacheControl` on a message content block. -/
def stripTtlMsgBlock (it : MsgBlock) : MsgBlock :=
  match it.cache_control with
  | some cc => { it with cache_control := some (stripTtlCC cc) }
  | none => it

/-- `_stripTtlFromCacheControl` applied to the system list and to every
block-list message content. -/
def stripTtlStep (b : RequestBody) : RequestBody :=
  { b with
    system :=
      match b.system with
      | .list bs => .list (bs.map stripTtlSystemBlock)
      | s => s,
    messages :=
      b.messages.map (fun ms => ms.map (fun m =>
        match m.content with
        | .blocks items => { m with content := .blocks (items.map stripTtlMsgBlock) }
        | _ => m)) }

/-- The Claude-Code prompt block injected for non-Claude-Code clients. -/
def claudeCodePromptBlock : SystemBlock :=
  { btype := "text",
    text := some claudeCodeSystemPrompt,
    cache_control := some { ctype := "ephemeral" } }

/-- Whether a block is the Claude-Code prompt block
(`item.type === 'text' && item.text === claudeCodeSystemPrompt`). -/
def isClaudeCodeBlock (blk : SystemBlock) : Bool :=
  blk.btype == "text" && blk.text == some claudeCodeSystemPrompt

/-- The Claude-Code prompt injection on the `system` field (applied only when
the request is not a real Claude Code request). -/
def claudeCodeSystem (sys : SystemField) : SystemField :=
  match sys with
  | .str s =>
    if trimStr s == claudeCodeSystemPrompt then .list [claudeCodePromptBlock]
    else .list [claudeCodePromptBlock, { btype := "text", text := some s }]
  | .list bs =>
    if (match bs.head? with
        | some first => isClaudeCodeBlock first
        | none => false) then .list bs
    else .list (claudeCodePromptBlock :: bs.filter (fun blk => !isClaudeCodeBlock blk))
  | .other => .list [claudeCodePromptBlock]
  | .missing => .list [claudeCodePromptBlock]

/-- The Claude-Code injection step. -/
def claudeCodeStep (isRealClaudeCode : Bool) (b : RequestBody) : RequestBody :=
  { b with system := if isRealClaudeCode then b.system else claudeCodeSystem b.system }

/-- The operator-configured system prompt handling on the `system` field:
append the configured prompt to a list `system` unless already present
(replacing any non-list `system`); with no configured prompt, delete a
list `system` without any truthy trimmed text. -/
def configPromptSystem (cfg : String) (sys : SystemField) : SystemField :=
  if trimStr cfg ≠ "" then
    match sys with
    | .list bs =>
      if bs.any (fun it => strTruthy it.text && it.text == some cfg) then .list bs
      else .list (bs ++ [{ btype := "text", text := some cfg }])
    | _ => .list [{ btype := "text", text := some cfg }]
  else
    match sys with
    | .list bs =>
      if bs.any (fun it => strTruthy it.text && (trimStr (jsOrStr it.text "") != "")) then .list bs
      else .missing
    | s => s

/-- The operator system prompt step. -/
def configPromptStep (cfg : String) (b : RequestBody) : RequestBody :=
  { b with system := configPromptSystem cfg b.system }

/-- The `top_p` deletion (`delete processedBody.top_p` when the field is
neither `undefined` nor `null`). -/
def jsDeleteTopP (t : Option (Option Nat)) : Option (Option Nat) :=
  match t with
  | some (some _) => none
  | x => x

/-- The `top_p` deletion step. -/
def topPStep (b : RequestBody) : RequestBody :=
  { b with top_p := jsDeleteTopP b.top_p }

/- ===================== Unified client id ===================== -/

/-- Lower-case hexadecimal digit (the `[a-f0-9]` character class). -/
def isLowerHexDigit (c : Char) : Bool :=
  (decide (48 ≤ c.toNat) && decide (c.toNat ≤ 57)) ||
    (decide (97 ≤ c.toNat) && decide (c.toNat ≤ 102))

/-- Character class `[a-f0-9-]` of the session-uuid segment. -/
def isUuidChar (c : Char) : Bool := isLowerHexDigit c || c == '-'

/-- Matcher for the source regex
`^user_[a-f0-9]{64}(_account__session_[a-f0-9-]{36})$`; on success returns
the captured group `match[1]` (the `_account__session_...` tail). -/
def userIdTailMatch (cs : List Char) : Option (List Char) :=
  if cs.take 5 == "user_".data then
    if ((cs.drop 5).take 64).length == 64 && ((cs.drop 5).take 64).all isLowerHexDigit then
      if ((cs.drop 5).drop 64).take 18 == "_account__session_".data then
        if (((cs.drop 5).drop 64).drop 18).length == 36 &&
            (((cs.drop 5).drop 64).drop 18).all isUuidChar then
          some ("_account__session_".data ++ ((cs.drop 5).drop 64).drop 18)
        else none
      else none
    else none
  else none

/-- The generated `user_{unifiedClientId}_account__session_{uuid}` string. -/
def genUserId (cid uuid : String) : String :=
  String.mk ((("user_".data ++ cid.data) ++ "_account__session_".data) ++ uuid.data)

/-- `_replaceClientId` on the metadata object: create metadata when missing;
generate a fresh id when `user_id` is falsy; splice the unified id into a
`user_id` matching the source regex; leave any other `user_id` unchanged.
`uuid` stands for the `crypto.randomUUID()` result. -/
def replaceClientId (meta : Option Metadata) (cid uuid : String) : Metadata :=
  match meta with
  | none => { user_id := some (genUserId cid uuid) }
  | some m =>
    match m.user_id with
    | none => { user_id := some (genUserId cid uuid) }
    | some uid =>
      if uid = "" then { user_id := some (genUserId cid uuid) }
      else
        match userIdTailMatch uid.data with
        | some tail => { user_id := some (String.mk (("user_".data ++ cid.data) ++ tail)) }
        | none => m

/-- The unified-client-id guard of `_processRequestBody`
(`account && account.useUnifiedClientId && account.unifiedClientId`). -/
def clientIdMeta (account : Option Account) (uuid : String) (meta : Option Metadata) :
    Option Metadata :=
  match account with
  | some a =>
    if a.useUnifiedClientId then
      match a.unifiedClientId with
      | some cid => if cid ≠ "" then some (replaceClientId meta cid uuid) else meta
      | none => meta
    else meta
  | none => meta

/-- The unified-client-id step. -/
def clientIdStep (account : Option Account) (uuid : String) (b : RequestBody) : RequestBody :=
  { b with metadata := clientIdMeta account uuid b.metadata }

/- ===================== Thinking variant ===================== -/

/-- The thinking budget: `max_tokens ? max_tokens - 1 : 31999`
(a present `max_tokens` of `0` is falsy in JS and yields `31999`). -/
def jsBudget (maxTokens : Option Nat) : Nat :=
  match maxTokens with
  | some m => if m = 0 then 31999 else m - 1
  | none => 31999

/-- The `thinking` value after the variant application step. -/
def newThinking (modelVariant : Option String) (maxTokens : Option Nat)
    (old : Option Thinking) : Option Thinking :=
  if modelVariant == some "thinking" then
    some { ttype := "enabled", budget_tokens := jsBudget maxTokens }
  else old

/-- The thinking-variant application step. -/
def thinkingStep (modelVariant : Option String) (b : RequestBody) : RequestBody :=
  { b with thinking := newThinking modelVariant b.max_tokens b.thinking }

/- ===================== The preparer pipeline ===================== -/

/-- `_processRequestBody(body, clientHeaders, account, isCountTokens)`.
`isRealClaudeCode` abstracts `ClaudeCodeValidator.validate`,
`configSystemPrompt` is `config.claude.systemPrompt`, `modelMaxLimit`
abstracts the pricing table, `freshUuid` the `crypto.randomUUID()` result.
A `count_tokens` request is returned unchanged. -/
def processRequestBody (b : RequestBody) (account : Option Account) (isCountTokens : Bool)
    (isRealClaudeCode : Bool) (configSystemPrompt : String)
    (modelMaxLimit : String → Option Nat) (freshUuid : String) : RequestBody :=
  if isCountTokens then b
  else
    thinkingStep (variantSplitStep b).modelVariantField
      (clientIdStep account freshUuid
        (topPStep
          (configPromptStep configSystemPrompt
            (claudeCodeStep isRealClaudeCode
              (stripTtlStep
                (validateMaxTokensStep modelMaxLimit
                  (toolResultStep
                    (securityTextStep
                      (clearVariantFieldStep (variantSplitStep b))))))))))

/- ===================== Response classification (relayRequest) ===================== -/

/-- The response body as seen by the classifier: `JSON.parse` succeeded and
`error.message` is the optional message (`jsonError`), or parsing threw and
the raw string is inspected (`raw`). -/
inductive RespBody where
  | jsonError (errorMessage : Option String)
  | raw (s : String)
deriving DecidableEq, Repr

/-- The rate-limit body check of `relayRequest`: a parsed `error.message` or
the raw body contains "exceed your account's rate limit" case-insensitively. -/
def bodyIndicatesRateLimit : RespBody → Bool
  | .jsonError (some m) => strContains (lowerStr m) rateLimitMarker
  | .jsonError none => false
  | .raw s => strContains (lowerStr s) rateLimitMarker

/-- Truthiness filter for the `anthropic-ratelimit-unified-5h-status` header. -/
def sessionWindowTruthy (h : Option String) : Option String :=
  match h with
  | some s => if s = "" then none else some s
  | none => none

/-- The health actions performed by `relayRequest` for one upstream response.
`markedRateLimited = some r` means `markAccountRateLimited` was called with
`resetAt = r` (`none` standing for JS `null`). -/
structure HealthActions where
  recorded401 : Bool := false
  markedUnauthorized : Bool := false
  markedBlocked : Bool := false
  markedOverloaded : Bool := false
  recordedServerError : Bool := false
  markedRateLimited : Option (Option Nat) := none
  clearedUnauthorized : Bool := false
  clearedInternalErrors : Bool := false
  removedRateLimit : Bool := false
  removedOverload : Bool := false
  updatedSessionWindow : Option String := none
deriving DecidableEq, Repr

/-- The `relayRequest` classification chain (lines 130-283 of the relay
service).  `resetHeader` is the parsed `anthropic-ratelimit-unified-reset`
header when truthy; `overloadEnabled` is
`config.claude.overloadHandling.enabled > 0`; `prev401Count` is the redis
401 counter before the `INCR`; `wasRateLimited` / `wasOverloaded` are the
`isAccountRateLimited` / `isAccountOverloaded` lookups. -/
def relayClassify (status : Nat) (resetHeader : Option Nat) (body : RespBody)
    (overloadEnabled : Bool) (prev401Count : Nat) (wasRateLimited wasOverloaded : Bool)
    (sessionWindowHeader : Option String) : HealthActions :=
  if status ≠ 200 ∧ status ≠ 201 then
    if status = 401 then
      { recorded401 := true, markedUnauthorized := decide (1 ≤ prev401Count + 1) }
    else if status = 403 then
      { markedBlocked := true }
    else if status = 529 then
      { markedOverloaded := overloadEnabled }
    else if 500 ≤ status ∧ status < 600 then
      { recordedServerError := true }
    else if status = 429 then
      { markedRateLimited := some resetHeader }
    else if bodyIndicatesRateLimit body then
      { markedRateLimited := some none }
    else
      {}
  else
    { updatedSessionWindow := sessionWindowTruthy sessionWindowHeader,
      clearedUnauthorized := true,
      clearedInternalErrors := true,
      removedRateLimit := wasRateLimited,
      removedOverload := wasOverloaded }

/-- The health actions performed by the stream `end` handler of
`_makeClaudeStreamRequestWithUsageCapture` (after forwarding the buffer). -/
structure StreamEndActions where
  updatedSessionWindow : Option String := none
  markedRateLimited : Option (Option Nat) := none
  clearedUnauthorized : Bool := false
  clearedInternalErrors : Bool := false
  removedRateLimit : Bool := false
  removedOverload : Bool := false
deriving DecidableEq, Repr

/-- The stream-end health classification: the session-window status is
persisted for any final status; `markAccountRateLimited` fires when an
in-stream rate-limit error was seen or the stream status is 429; the
counters/flags are cleared only when the status is exactly 200. -/
def streamEndClassify (status : Nat) (rateLimitDetected : Bool) (resetHeader : Option Nat)
    (sessionWindowHeader : Option String) (wasRateLimited wasOverloaded : Bool) :
    StreamEndActions :=
  if rateLimitDetected || status == 429 then
    { updatedSessionWindow := sessionWindowTruthy sessionWindowHeader,
      markedRateLimited := some resetHeader }
  else if status == 200 then
    { updatedSessionWindow := sessionWindowTruthy sessionWindowHeader,
      clearedUnauthorized := true,
      clearedInternalErrors := true,
      removedRateLimit := wasRateLimited,
      removedOverload := wasOverloaded }
  else
    { updatedSessionWindow := sessionWindowTruthy sessionWindowHeader }

/- ===================== Streaming usage capture ===================== -/

/-- The usage object of a `message_start` event
(`data.message.usage`, with the optional nested `cache_creation` object as a
pair of its `ephemeral_5m_input_tokens` / `ephemeral_1h_input_tokens`). -/
structure StartUsage where
  input_tokens : Option Nat := none
  cache_creation_input_tokens : Option Nat := none
  cache_read_input_tokens : Option Nat := none
  cache_creation : Option (Option Nat × Option Nat) := none
deriving DecidableEq, Repr

/-- A parsed `data:` SSE line, as far as the usage tap inspects it.
`messageStart` covers `message_start` events whose `data.message` and
`data.message.usage` exist (`model` is `data.message.model`); `messageDelta`
covers `message_delta` events whose `data.usage.output_tokens` is defined
(value after `|| 0`); `errorEvent` covers `error` events carrying a message;
`other` covers every other line (including unparsable ones). -/
inductive SSEEvent where
  | messageStart (model : Option String) (usage : StartUsage)
  | messageDelta (output : Nat)
  | errorEvent (message : String)
  | other
deriving DecidableEq, Repr

/-- The usage record being accumulated (`currentUsageData`); fields are
`none` while unset. -/
structure CurUsage where
  input_tokens : Option Nat := none
  output_tokens : Option Nat := none
  cache_creation_input_tokens : Option Nat := none
  cache_read_input_tokens : Option Nat := none
  model : Option String := none
  cache_creation : Option (Nat × Nat) := none
deriving DecidableEq, Repr

/-- The state of the stream `data` handler. -/
structure StreamAcc where
  allUsageData : List CurUsage := []
  current : CurUsage := {}
  rateLimitDetected : Bool := false
deriving DecidableEq, Repr

/-- Processing of one parsed `data:` line by the stream `data` handler. -/
def processSSEEvent (acc : StreamAcc) (e : SSEEvent) : StreamAcc :=
  match e with
  | .messageStart mdl u =>
    let acc1 :=
      if acc.current.input_tokens ≠ none ∧ acc.current.output_tokens ≠ none then
        { acc with allUsageData := acc.allUsageData ++ [acc.current], current := {} }
      else acc
    { acc1 with
      current :=
        { acc1.current with
          input_tokens := some (u.input_tokens.getD 0),
          cache_creation_input_tokens := some (u.cache_creation_input_tokens.getD 0),
          cache_read_input_tokens := some (u.cache_read_input_tokens.getD 0),
          model := mdl,
          cache_creation :=
            match u.cache_creation with
            | some (e5, e1) => some (e5.getD 0, e1.getD 0)
            | none => acc1.current.cache_creation } }
  | .messageDelta out =>
    let cur := { acc.current with output_tokens := some out }
    if cur.input_tokens ≠ none then
      { acc with allUsageData := acc.allUsageData ++ [cur], current := {} }
    else
      { acc with current := cur }
  | .errorEvent msg =>
    if strContains (lowerStr msg) rateLimitMarker then
      { acc with rateLimitDetected := true }
    else acc
  | .other => acc

/-- The stream `data` handler run over the whole event sequence. -/
def runStream (events : List SSEEvent) : StreamAcc :=
  events.foldl processSSEEvent {}

/-- The record list after the `end` handler's flush: a leftover record with
captured input gets `output_tokens` defaulted to 0 and is pushed. -/
def finishRecords (acc : StreamAcc) : List CurUsage :=
  if acc.current.input_tokens ≠ none then
    acc.allUsageData ++ [{ acc.current with output_tokens := some (acc.current.output_tokens.getD 0) }]
  else acc.allUsageData

/-- The merged usage record passed to `usageCallback`. -/
structure FinalUsage where
  input_tokens : Nat
  output_tokens : Nat
  cache_creation_input_tokens : Nat
  cache_read_input_tokens : Nat
  model : String
  cache_creation : Option (Nat × Nat) := none
deriving DecidableEq, Repr

/-- The accumulation of one token field over the captured records
(the `reduce` of the `end` handler, with `|| 0` on both sides). -/
def sumBy (records : List CurUsage) (f : CurUsage → Nat) : Nat :=
  records.foldl (fun a r => a + f r) 0

/-- The `end` handler's merge: `none` when no usage record was captured
(in which case `usageCallback` is never invoked), otherwise the summed
record with `model` taken from the last record or the request model and the
detailed cache-creation pair attached when one of its totals is positive. -/
def mergeUsage (records : List CurUsage) (bodyModel : String) : Option FinalUsage :=
  match records.getLast? with
  | none => none
  | some lastRec =>
    some
      { input_tokens := sumBy records (fun r => r.input_tokens.getD 0),
        output_tokens := sumBy records (fun r => r.output_tokens.getD 0),
        cache_creation_input_tokens := sumBy records (fun r => r.cache_creation_input_tokens.getD 0),
        cache_read_input_tokens := sumBy records (fun r => r.cache_read_input_tokens.getD 0),
        model := jsOrStr lastRec.model bodyModel,
        cache_creation :=
          if 0 < sumBy records (fun r => (r.cache_creation.map Prod.fst).getD 0) ∨
              0 < sumBy records (fun r => (r.cache_creation.map Prod.snd).getD 0) then
            some (sumBy records (fun r => (r.cache_creation.map Prod.fst).getD 0),
                  sumBy records (fun r => (r.cache_creation.map Prod.snd).getD 0))
          else none }

/-- The value handed to `usageCallback` on stream end (with `accountId`
attached by `relayStreamRequestWithUsageCapture`), or `none` when the
callback is not invoked. -/
def streamEndEmit (events : List SSEEvent) (bodyModel accountId : String) :
    Option (FinalUsage × String) :=
  (mergeUsage (finishRecords (runStream events)) bodyModel).map (fun u => (u, accountId))

/-- How many times `usageCallback` is invoked by the `end` handler. -/
def usageCallbackInvocations (events : List SSEEvent) (bodyModel : String) : Nat :=
  match mergeUsage (finishRecords (runStream events)) bodyModel with
  | some _ => 1
  | none => 0

/-- A write performed on the client stream by the non-200 error handler. -/
inductive ErrorWrite where
  | eventErrorLine
  | errorDataFrame (error : String) (status : Nat) (details : String)
deriving DecidableEq, Repr

/-- The result of the non-200 `onResponse` error path of
`_makeClaudeStreamRequestWithUsageCapture`: it forwards one SSE error event
built from the accumulated error body, ends the client stream, rejects the
promise, and never invokes `usageCallback`. -/
structure ErrorEndResult where
  writes : List ErrorWrite
  ended : Bool
  usageEmitted : Option FinalUsage
  rejected : Bool
deriving DecidableEq, Repr

/-- The non-200 error path of the stream request. -/
def streamErrorEnd (status : Nat) (errorData : String) : ErrorEndResult :=
  { writes := [.eventErrorLine, .errorDataFrame "Claude API error" status errorData],
    ended := true,
    usageEmitted := none,
    rejected := true }

/- ===================== HTTP/2 session pool ===================== -/

/-- Observable state of an HTTP/2 session object. -/
structure SessStatus where
  closed : Bool
  destroyed : Bool
deriving DecidableEq, Repr

/-- One entry of the session pool map (`key -> {session, lastUsed}`);
sessions are identified by a numeric id. -/
structure PoolEntry where
  key : String
  sessionId : Nat
  lastUsed : Nat
deriving DecidableEq, Repr

/-- The pool state.  `nextId` is the id the next created session receives;
`lastCreated` is ghost state recording, per key, the most recently created
session for that key. -/
structure PoolState where
  pool : List PoolEntry
  nextId : Nat
  lastCreated : String → Option Nat

/-- `Map.get`-style lookup. -/
def lookupPool (pool : List PoolEntry) (k : String) : Option PoolEntry :=
  pool.find? (fun e => e.key == k)

/-- `Map.delete`. -/
def removePool (pool : List PoolEntry) (k : String) : List PoolEntry :=
  pool.filter (fun e => !(e.key == k))

/-- The session key (`host:port` with `options.port || 443`). -/
def sessionKeyOf (host : String) (port : Option Nat) : String :=
  host ++ ":" ++ toString (jsOrNat port 443)

/-- Creation of a new session followed by `sessions.set(key, ...)`
(the new session gets id `st.nextId`). -/
def createAndStore (st : PoolState) (key : String) (now : Nat) : Nat × PoolState :=
  (st.nextId,
   { pool := { key := key, sessionId := st.nextId, lastUsed := now } :: removePool st.pool key,
     nextId := st.nextId + 1,
     lastCreated := fun k => if k = key then some st.nextId else st.lastCreated k })

/-- `Http2Client.getSession`: reuse a cached entry only when its session is
neither closed nor destroyed (refreshing `lastUsed`); otherwise delete the
stale entry, create a new session and store it under the same key.
`env` gives the observable status of each session id. -/
def getSession (env : Nat → SessStatus) (st : PoolState) (host : String) (port : Option Nat)
    (now : Nat) : Nat × PoolState :=
  match lookupPool st.pool (sessionKeyOf host port) with
  | some e =>
    if (env e.sessionId).closed = false ∧ (env e.sessionId).destroyed = false then
      (e.sessionId,
       { st with
         pool := st.pool.map (fun x =>
           if x.key = sessionKeyOf host port then { x with lastUsed := now } else x) })
    else
      createAndStore { st with pool := removePool st.pool (sessionKeyOf host port) }
        (sessionKeyOf host port) now
  | none => createAndStore st (sessionKeyOf host port) now

/-- The `error` / `goaway` / `close` handlers registered on a created
session: they delete the pool entry stored under the session's key. -/
def evictKey (st : PoolState) (key : String) : PoolState :=
  { st with pool := removePool st.pool key }

/-- Pool invariant: at most one entry per `host:port` key. -/
def keysNodup (st : PoolState) : Prop :=
  (st.pool.map PoolEntry.key).Nodup

/-- Pool invariant: every stored entry refers to the most recently created
session for its key. -/
def mostRecent (st : PoolState) : Prop :=
  ∀ e ∈ st.pool, st.lastCreated e.key = some e.sessionId

/- ===================== Proxy CONNECT tunnel ===================== -/

/-- The standard base64 alphabet. -/
def base64Alphabet : List Char :=
  "ABCDEFGHIJKLMNOPQRSTUVWXYZabcdefghijklmnopqrstuvwxyz0123456789+/".data

/-- Character of a 6-bit group. -/
def b64Char (n : Nat) : Char := base64Alphabet.getD n 'A'

/-- Standard base64 of a byte list (with padding). -/
def base64Chunks : List Nat → List Char
  | [] => []
  | [a] => [b64Char (a / 4), b64Char (a % 4 * 16), '=', '=']
  | [a, b] => [b64Char (a / 4), b64Char (a % 4 * 16 + b / 16), b64Char (b % 16 * 4), '=']
  | a :: b :: c :: rest =>
    b64Char (a / 4) :: b64Char (a % 4 * 16 + b / 16) :: b64Char (b % 16 * 4 + c / 64) ::
      b64Char (c % 64) :: base64Chunks rest

/-- `Buffer.from(s).toString('base64')` for ASCII credentials. -/
def base64Encode (s : String) : String :=
  String.mk (base64Chunks (s.data.map Char.toNat))

/-- One observable step of proxied session creation. -/
inductive ConnStep where
  | connectRequest (proxyHost : String) (proxyPort : Nat) (path : String)
      (hostHeader : String) (proxyAuth : Option String)
  | destroySocket
  | tlsConnect (servername : String) (alpn : List String)
  | attachH2Session
deriving DecidableEq, Repr

/-- `Http2Client.createSession`, proxied mode: issue a raw `CONNECT
host:port` to the proxy (with `Proxy-Authorization: Basic ...` when the
proxy URL carries both a username and a password); on a non-200 CONNECT
answer destroy the tunnel socket and reject; on 200 wrap the tunnel socket
in TLS with ALPN `h2` and SNI = target hostname and attach the HTTP/2
session to it.  `connectStatus` is the proxy's answer to the CONNECT. -/
def createSessionViaProxy (hostname : String) (targetPort : Option Nat)
    (proxyProtocol proxyHost : String) (proxyPort : Option Nat)
    (user pass : String) (connectStatus : Nat) : List ConnStep × Except String Unit :=
  let tp := jsOrNat targetPort 443
  let pp := jsOrNat proxyPort (if proxyProtocol == "https:" then 443 else 80)
  let auth : Option String :=
    if user ≠ "" ∧ pass ≠ "" then
      some ("Basic " ++ base64Encode (user ++ ":" ++ pass))
    else none
  let req := ConnStep.connectRequest proxyHost pp (hostname ++ ":" ++ toString tp)
    (hostname ++ ":" ++ toString tp) auth
  if connectStatus ≠ 200 then
    ([req, .destroySocket],
     .error ("Proxy CONNECT failed with status " ++ toString connectStatus))
  else
    ([req, .tlsConnect hostname ["h2"], .attachH2Session], .ok ())

/- ===================== Proxy agent factory ===================== -/

/-- A proxy descriptor (`{type, host, port, username?, password?}`). -/
structure ProxyDesc where
  ptype : String
  host : String
  port : Nat
  username : Option String := none
  password : Option String := none
deriving DecidableEq, Repr

/-- The required-fields truthiness check
(`!proxy.type || !proxy.host || !proxy.port`). -/
def descTruthy (d : ProxyDesc) : Bool :=
  (d.ptype != "") && (d.host != "") && (d.port != 0)

/-- The agent cache key: `type://host:port:username` — the password is not
part of the key. -/
def cacheKey (d : ProxyDesc) : String :=
  d.ptype ++ "://" ++ d.host ++ ":" ++ toString d.port ++ ":" ++ jsOrStr d.username ""

/-- The `user:pass@` URL auth part (present only when both are truthy). -/
def authPart (d : ProxyDesc) : String :=
  match d.username, d.password with
  | some u, some p => if u ≠ "" ∧ p ≠ "" then u ++ ":" ++ p ++ "@" else ""
  | _, _ => ""

/-- A created proxy agent, identified by its constructor kind and URL. -/
structure Agent where
  kind : String
  url : String
deriving DecidableEq, Repr

/-- Agent construction by proxy type (SocksProxyAgent for `socks5`,
HttpsProxyAgent for `http` / `https`, `none` for unsupported types). -/
def mkAgent (d : ProxyDesc) : Option Agent :=
  if d.ptype == "socks5" then
    some { kind := "socks", url := "socks5h://" ++ authPart d ++ d.host ++ ":" ++ toString d.port }
  else if d.ptype == "http" || d.ptype == "https" then
    some { kind := "https-proxy",
           url := d.ptype ++ "://" ++ authPart d ++ d.host ++ ":" ++ toString d.port }
  else none

/-- `ProxyHelper.createProxyAgent` over an explicit cache: returns the
resulting agent, the new cache, and whether a fresh agent was created. -/
def createProxyAgent (cache : List (String × Agent)) (d : ProxyDesc) :
    Option Agent × List (String × Agent) × Bool :=
  if !descTruthy d then (none, cache, false)
  else
    match cache.find? (fun kv => kv.1 == cacheKey d) with
    | some kv => (some kv.2, cache, false)
    | none =>
      match mkAgent d with
      | some a => (some a, (cacheKey d, a) :: cache, true)
      | none => (none, cache, false)

/- ===================== Spec-side pattern and concrete instances ===================== -/

/-- Whether the outbound body still carries a `top_p` field with a non-null
value. -/
def hasNonNullTopP (b : RequestBody) : Bool :=
  match b.top_p with
  | some (some _) => true
  | _ => false

/-- The final `metadata.user_id` of a body, when present. -/
def userIdOf (b : RequestBody) : Option String :=
  match b.metadata with
  | some m => m.user_id
  | none => none

/-- The literal prefix `user_<cid>_account__session_` of the claimed
user-id pattern. -/
def specUserIdPre (cid : List Char) : List Char :=
  ("user_".data ++ cid) ++ "_account__session_".data

/-- Modelled from the spec claim: decision procedure for the regex
`^user_<unifiedClientId>_account__session_[a-f0-9-]{36}$` over character
lists. -/
def matchesClaimedPatternData (cs cid : List Char) : Bool :=
  (cs.take (specUserIdPre cid).length == specUserIdPre cid) &&
    ((cs.drop (specUserIdPre cid).length).length == 36) &&
    ((cs.drop (specUserIdPre cid).length).all isUuidChar)

/-- Modelled from the spec claim: the claimed final user-id pattern. -/
def matchesClaimedPattern (s cid : String) : Bool :=
  matchesClaimedPatternData s.data cid.data

/-- A 64-hex-character unified client id used in concrete instances. -/
def cid64 : String :=
  "aaaaaaaaaaaaaaaaaaaaaaaaaaaaaaaaaaaaaaaaaaaaaaaaaaaaaaaaaaaaaaaa"

/-- A well-formed session uuid (36 characters over `[a-f0-9-]`). -/
def uuid0 : String := "00000000-0000-4000-8000-000000000000"

/-- A unified-client-id account used in concrete instances. -/
def unifiedAccount : Account := { useUnifiedClientId := true, unifiedClientId := some cid64 }

/-- A body with a pre-existing `metadata.user_id` that does not match the
source regex. -/
def c4Body : RequestBody := { metadata := some { user_id := some "bob" } }

/-- A body carrying a non-null `top_p`. -/
def c5Body : RequestBody :=
  { model := some "claude-sonnet-4-20250514", max_tokens := some 100, top_p := some (some 1) }

/-- The spec's thinking-variant scenario body
(`model: "claude-sonnet-4-20250514:thinking"`, `max_tokens: 8000`). -/
def c7Body : RequestBody :=
  { model := some "claude-sonnet-4-20250514:thinking", max_tokens := some 8000 }

/-- A non-2xx response body carrying the rate-limit marker. -/
def c2Body : RespBody :=
  .raw ("This request would exceed your account" ++ String.mk [apos] ++ "s rate limit")

/-- The SSE event sequence of the spec's usage-aggregation scenario. -/
def sc3Events : List SSEEvent :=
  [.messageStart (some "claude-sonnet-4-20250514")
     { input_tokens := some 10, cache_creation_input_tokens := some 5,
       cache_read_input_tokens := some 2 },
   .other,
   .messageDelta 42]

/-- The merged usage record expected for `sc3Events`. -/
def sc3Usage : FinalUsage :=
  { input_tokens := 10, output_tokens := 42, cache_creation_input_tokens := 5,
    cache_read_input_tokens := 2, model := "claude-sonnet-4-20250514" }

/-- The single captured record of `sc3Events`. -/
def sc3Last : CurUsage :=
  { input_tokens := some 10, output_tokens := some 42, cache_creation_input_tokens := some 5,
    cache_read_input_tokens := some 2, model := some "claude-sonnet-4-20250514" }

/-- An always-open session-status environment. -/
def env0 : Nat → SessStatus := fun _ => { closed := false, destroyed := false }

/-- The empty session pool state. -/
def st0 : PoolState := { pool := [], nextId := 0, lastCreated := fun _ => none }

/-- An HTTP proxy descriptor with a first password. -/
def p1d : ProxyDesc :=
  { ptype := "http", host := "p", port := 8080, username := some "u", password := some "secret1" }

/-- The same proxy descriptor with a different password. -/
def p2d : ProxyDesc := { p1d with password := some "secret2" }

/- ===================== Helper lemmas ===================== -/

@[simp] theorem variantSplitStep_max_tokens (b : RequestBody) :
    (variantSplitStep b).max_tokens = b.max_tokens := rfl

@[simp] theorem variantSplitStep_top_p (b : RequestBody) :
    (variantSplitStep b).top_p = b.top_p := rfl

@[simp] theorem variantSplitStep_metadata (b : RequestBody) :
    (variantSplitStep b).metadata = b.metadata := rfl

@[simp] theorem variantSplitStep_model (b : RequestBody) :
    (variantSplitStep b).model = (variantSplit b.model b.modelVariantField).1 := rfl

@[simp] theorem variantSplitStep_mv (b : RequestBody) :
    (variantSplitStep b).modelVariantField = (variantSplit b.model b.modelVariantField).2 := rfl

@[simp] theorem clearVariantFieldStep_model (b : RequestBody) :
    (clearVariantFieldStep b).model = b.model := rfl

@[simp] theorem clearVariantFieldStep_max_tokens (b : RequestBody) :
    (clearVariantFieldStep b).max_tokens = b.max_tokens := rfl

@[simp] theorem clearVariantFieldStep_top_p (b : RequestBody) :
    (clearVariantFieldStep b).top_p = b.top_p := rfl

@[simp] theorem clearVariantFieldStep_metadata (b : RequestBody) :
    (clearVariantFieldStep b).metadata = b.metadata := rfl

@[simp] theorem securityTextStep_model (b : RequestBody) :
    (securityTextStep b).model = b.model := rfl

@[simp] theorem securityTextStep_max_tokens (b : RequestBody) :
    (securityTextStep b).max_tokens = b.max_tokens := rfl

@[simp] theorem securityTextStep_top_p (b : RequestBody) :
    (securityTextStep b).top_p = b.top_p := rfl

@[simp] theorem securityTextStep_metadata (b : RequestBody) :
    (securityTextStep b).metadata = b.metadata := rfl

@[simp] theorem toolResultStep_model (b : RequestBody) :
    (toolResultStep b).model = b.model := rfl

@[simp] theorem toolResultStep_max_tokens (b : RequestBody) :
    (toolResultStep b).max_tokens = b.max_tokens := rfl

@[simp] theorem toolResultStep_top_p (b : RequestBody) :
    (toolResultStep b).top_p = b.top_p := rfl

@[simp] theorem toolResultStep_metadata (b : RequestBody) :
    (toolResultStep b).metadata = b.metadata := rfl

@[simp] theorem validateMaxTokensStep_model (lim : String → Option Nat) (b : RequestBody) :
    (validateMaxTokensStep lim b).model = b.model := rfl

@[simp] theorem validateMaxTokensStep_top_p (lim : String → Option Nat) (b : RequestBody) :
    (validateMaxTokensStep lim b).top_p = b.top_p := rfl

@[simp] theorem validateMaxTokensStep_metadata (lim : String → Option Nat) (b : RequestBody) :
    (validateMaxTokensStep lim b).metadata = b.metadata := rfl

@[simp] theorem validateMaxTokensStep_max_tokens (lim : String → Option Nat) (b : RequestBody) :
    (validateMaxTokensStep lim b).max_tokens = clampMaxTokens lim b.model b.max_tokens := rfl

@[simp] theorem stripTtlStep_model (b : RequestBody) :
    (stripTtlStep b).model = b.model := rfl

@[simp] theorem stripTtlStep_max_tokens (b : RequestBody) :
    (stripTtlStep b).max_tokens = b.max_tokens := rfl

@[simp] theorem stripTtlStep_top_p (b : RequestBody) :
    (stripTtlStep b).top_p = b.top_p := rfl

@[simp] theorem stripTtlStep_metadata (b : RequestBody) :
    (stripTtlStep b).metadata = b.metadata := rfl

@[simp] theorem claudeCodeStep_model (rcc : Bool) (b : RequestBody) :
    (claudeCodeStep rcc b).model = b.model := rfl

@[simp] theorem claudeCodeStep_max_tokens (rcc : Bool) (b : RequestBody) :
    (claudeCodeStep rcc b).max_tokens = b.max_tokens := rfl

@[simp] theorem claudeCodeStep_top_p (rcc : Bool) (b : RequestBody) :
    (claudeCodeStep rcc b).top_p = b.top_p := rfl

@[simp] theorem claudeCodeStep_metadata (rcc : Bool) (b : RequestBody) :
    (claudeCodeStep rcc b).metadata = b.metadata := rfl

@[simp] theorem configPromptStep_model (cfg : String) (b : RequestBody) :
    (configPromptStep cfg b).model = b.model := rfl

@[simp] theorem configPromptStep_max_tokens (cfg : String) (b : RequestBody) :
    (configPromptStep cfg b).max_tokens = b.max_tokens := rfl

@[simp] theorem configPromptStep_top_p (cfg : String) (b : RequestBody) :
    (configPromptStep cfg b).top_p = b.top_p := rfl

@[simp] theorem configPromptStep_metadata (cfg : String) (b : RequestBody) :
    (configPromptStep cfg b).metadata = b.metadata := rfl

@[simp] theorem topPStep_model (b : RequestBody) :
    (topPStep b).model = b.model := rfl

@[simp] theorem topPStep_max_tokens (b : RequestBody) :
    (topPStep b).max_tokens = b.max_tokens := rfl

@[simp] theorem topPStep_metadata (b : RequestBody) :
    (topPStep b).metadata = b.metadata := rfl

@[simp] theorem topPStep_top_p (b : RequestBody) :
    (topPStep b).top_p = jsDeleteTopP b.top_p := rfl

@[simp] theorem clientIdStep_model (a : Option Account) (u : String) (b : RequestBody) :
    (clientIdStep a u b).model = b.model := rfl

@[simp] theorem clientIdStep_max_tokens (a : Option Account) (u : String) (b : RequestBody) :
    (clientIdStep a u b).max_tokens = b.max_tokens := rfl

@[simp] theorem clientIdStep_top_p (a : Option Account) (u : String) (b : RequestBody) :
    (clientIdStep a u b).top_p = b.top_p := rfl

@[simp] theorem clientIdStep_metadata (a : Option Account) (u : String) (b : RequestBody) :
    (clientIdStep a u b).metadata = clientIdMeta a u b.metadata := rfl

@[simp] theorem thinkingStep_model (v : Option String) (b : RequestBody) :
    (thinkingStep v b).model = b.model := rfl

@[simp] theorem thinkingStep_max_tokens (v : Option String) (b : RequestBody) :
    (thinkingStep v b).max_tokens = b.max_tokens := rfl

@[simp] theorem thinkingStep_top_p (v : Option String) (b : RequestBody) :
    (thinkingStep v b).top_p = b.top_p := rfl

@[simp] theorem thinkingStep_metadata (v : Option String) (b : RequestBody) :
    (thinkingStep v b).metadata = b.metadata := rfl

@[simp] theorem thinkingStep_thinking (v : Option String) (b : RequestBody) :
    (thinkingStep v b).thinking = newThinking v b.max_tokens b.thinking := rfl

theorem strEndsWith_append (a b : String) : strEndsWith (a ++ b) b = true := by
  unfold strEndsWith dataEndsWith
  rw [String.data_append, List.length_append, Nat.add_sub_cancel, List.drop_left]
  simp

theorem sumBy_eq_sum_map (l : List CurUsage) (f : CurUsage → Nat) :
    sumBy l f = (l.map f).sum := by
  unfold sumBy
  suffices h : ∀ a, l.foldl (fun acc r => acc + f r) a = a + (l.map f).sum by
    simpa using h 0
  induction l with
  | nil => intro a; simp
  | cons x xs ih => intro a; simp [ih, Nat.add_assoc]

theorem getLast?_eq_none_iff (l : List CurUsage) : l.getLast? = none ↔ l = [] := by
  cases l with
  | nil => simp
  | cons a as => simp [List.getLast?]

theorem matchesClaimedPatternData_append (cid t : List Char)
    (h1 : t.length = 36) (h2 : t.all isUuidChar = true) :
    matchesClaimedPatternData (specUserIdPre cid ++ t) cid = true := by
  unfold matchesClaimedPatternData
  rw [List.take_left, List.drop_left]
  simp [h1, h2]

theorem userIdTailMatch_shape {cs tail : List Char} (h : userIdTailMatch cs = some tail) :
    ∃ t, tail = "_account__session_".data ++ t ∧ t.length = 36 ∧ t.all isUuidChar = true := by
  unfold userIdTailMatch at h
  split at h
  · split at h
    · split at h
      · split at h
        · rename_i hlast
          refine ⟨((cs.drop 5).drop 64).drop 18, (Option.some.inj h).symm, ?_, ?_⟩
          · have := (Bool.and_eq_true _ _).mp hlast |>.1
            simpa using this
          · exact (Bool.and_eq_true _ _).mp hlast |>.2
        · exact absurd h (by simp)
      · exact absurd h (by simp)
    · exact absurd h (by simp)
  · exact absurd h (by simp)

theorem lookupPool_mem {pool : List PoolEntry} {k : String} {e : PoolEntry}
    (h : lookupPool pool k = some e) : e ∈ pool ∧ e.key = k := by
  refine ⟨List.mem_of_find?_eq_some h, ?_⟩
  have := List.find?_some h
  simpa using this

theorem removePool_mem {pool : List PoolEntry} {k : String} {x : PoolEntry}
    (h : x ∈ removePool pool k) : x ∈ pool ∧ x.key ≠ k := by
  unfold removePool at h
  have := List.mem_filter.mp h
  refine ⟨this.1, ?_⟩
  simpa using this.2

theorem removePool_keys_sublist (pool : List PoolEntry) (k : String) :
    List.Sublist ((removePool pool k).map PoolEntry.key) (pool.map PoolEntry.key) :=
  (List.filter_sublist pool).map PoolEntry.key

theorem createAndStore_nodup (st : PoolState) (key : String) (now : Nat)
    (hn : keysNodup st) : keysNodup (createAndStore st key now).2 := by
  unfold createAndStore keysNodup
  simp only [List.map_cons]
  refine List.nodup_cons.mpr ⟨?_, ?_⟩
  · intro hmem
    obtain ⟨x, hx, hxk⟩ := List.mem_map.mp hmem
    exact absurd hxk (removePool_mem hx).2
  · exact (removePool_keys_sublist st.pool key).nodup hn

theorem createAndStore_mostRecent (st : PoolState) (key : String) (now : Nat)
    (hm : mostRecent st) : mostRecent (createAndStore st key now).2 := by
  intro e he
  unfold createAndStore at he ⊢
  simp only [List.mem_cons] at he
  rcases he with rfl | hmem
  · simp
  · obtain ⟨hx, hxk⟩ := removePool_mem hmem
    simpa [hxk] using hm e hx

theorem lookupPool_removePool (pool : List PoolEntry) (k : String) :
    lookupPool (removePool pool k) k = none := by
  unfold lookupPool
  rw [List.find?_eq_none]
  intro x hx hk
  exact absurd (by simpa using hk) (removePool_mem hx).2

/- ===================== Claim C5 ===================== -/

/-- C5 counterexample: the claim "the outbound body contains no `top_p`
field" fails — for a `count_tokens` request the preparer returns the body
unchanged, so an incoming `top_p` (here with value 1) survives into the
outbound body. -/
theorem C5_counterexample :
    (processRequestBody c5Body none true true "" (fun _ => none) "").top_p = some (some 1) := rfl

/-- C5 (amended): when `isCountTokens` is false the outbound body carries no
`top_p` field with a non-null value (a `top_p: null` is left in place); when
`isCountTokens` is true the body is returned unchanged, `top_p` included. -/
theorem C5_amended (b : RequestBody) (account : Option Account) (isRCC : Bool)
    (cfg : String) (lim : String → Option Nat) (uuid : String) :
    hasNonNullTopP (processRequestBody b account false isRCC cfg lim uuid) = false ∧
    processRequestBody b account true isRCC cfg lim uuid = b := by
  refine ⟨?_, rfl⟩
  unfold processRequestBody hasNonNullTopP
  simp only [if_false, Bool.false_eq_true, thinkingStep_top_p, clientIdStep_top_p,
    topPStep_top_p, configPromptStep_top_p, claudeCodeStep_top_p, stripTtlStep_top_p,
    validateMaxTokensStep_top_p, toolResultStep_top_p, securityTextStep_top_p,
    clearVariantFieldStep_top_p, variantSplitStep_top_p]
  cases hb : b.top_p with
  | none => simp [jsDeleteTopP]
  | some v => cases v <;> simp [jsDeleteTopP]

/- ===================== Claim C7 ===================== -/

/-- C7 counterexample: the claim quantifies over every request whose model
carries the `:thinking` suffix, but for a `count_tokens` request the
preparer returns the body unchanged: the suffix is not stripped and no
`thinking` object is added. -/
theorem C7_counterexample :
    (processRequestBody c7Body none true true "" (fun _ => none) "").model =
      some "claude-sonnet-4-20250514:thinking" ∧
    (processRequestBody c7Body none true true "" (fun _ => none) "").thinking = none :=
  ⟨rfl, rfl⟩

/-- C7 (amended): for every non-`count_tokens` request without a pre-existing
`_modelVariant` field whose model splits into a base name and the variant
`thinking`, the outbound model is the base name and `thinking` is set to
`{type: "enabled", budget_tokens: m - 1}` where `m` is the outbound
(possibly clamped) `max_tokens` when present and non-zero, and to
`budget_tokens: 31999` otherwise; in particular the spec scenario
(`claude-sonnet-4-20250514:thinking`, `max_tokens` 8000) yields the base
model with budget 7999. -/
theorem C7_amended (b : RequestBody) (account : Option Account) (isRCC : Bool)
    (cfg : String) (lim : String → Option Nat) (uuid : String) (m base : String)
    (hv : b.modelVariantField = none)
    (hm : b.model = some m)
    (hsplit : modelVariantOf m = some (base, "thinking")) :
    (processRequestBody b account false isRCC cfg lim uuid).model = some base ∧
    (processRequestBody b account false isRCC cfg lim uuid).thinking =
      some { ttype := "enabled",
             budget_tokens :=
               jsBudget (processRequestBody b account false isRCC cfg lim uuid).max_tokens } := by
  have hme : m ≠ "" := by
    intro hrfl
    rw [hrfl] at hsplit
    simp [modelVariantOf, lastIndexOf] at hsplit
  have hvs : variantSplit b.model b.modelVariantField = (some base, some "thinking") := by
    rw [hm, hv]
    simp [variantSplit, hme, hsplit, strTruthy]
  unfold processRequestBody
  simp only [if_false, Bool.false_eq_true, thinkingStep_model, clientIdStep_model,
    topPStep_model, configPromptStep_model, claudeCodeStep_model, stripTtlStep_model,
    validateMaxTokensStep_model, toolResultStep_model, securityTextStep_model,
    clearVariantFieldStep_model, variantSplitStep_model, variantSplitStep_mv,
    thinkingStep_thinking, thinkingStep_max_tokens, hvs]
  simp [newThinking]

/-- C7 witness: the spec's concrete thinking-variant scenario, via
`C7_amended`. -/
theorem C7_witness :
    (processRequestBody c7Body none false true "" (fun _ => none) "u").model =
      some "claude-sonnet-4-20250514" ∧
    (processRequestBody c7Body none false true "" (fun _ => none) "u").thinking =
      some { ttype := "enabled", budget_tokens := 7999 } := by
  obtain ⟨h1, h2⟩ := C7_amended c7Body none true "" (fun _ => none) "u"
    "claude-sonnet-4-20250514:thinking" "claude-sonnet-4-20250514" rfl rfl (by decide)
  exact ⟨h1, by rw [h2]; decide⟩

/- ===================== Claim C4 ===================== -/

/-- C4 counterexample: the claim asserts the final `metadata.user_id`
matches the unified pattern for every pre-existing value, but a value that
does not match the source regex (here `"bob"`) is left unchanged and does
not match the claimed pattern. -/
theorem C4_counterexample :
    userIdOf (processRequestBody c4Body (some unifiedAccount) false true "" (fun _ => none) uuid0) =
      some "bob" ∧
    matchesClaimedPattern "bob" cid64 = false := by
  exact ⟨rfl, by decide⟩

/-- C4 (amended): for a non-`count_tokens` request processed for an account
with `useUnifiedClientId` and a non-empty `unifiedClientId`, and a
well-formed generated session uuid: when the incoming `metadata.user_id` is
absent or empty a fresh id is generated and matches
`^user_<unifiedClientId>_account__session_[a-f0-9-]{36}$`; when it matches
the source regex `^user_[a-f0-9]{64}(_account__session_[a-f0-9-]{36})$` the
unified id is spliced in and the result matches the claimed pattern; any
other pre-existing value is left unchanged (and need not match). -/
theorem C4_amended (b : RequestBody) (isRCC : Bool) (cfg : String)
    (lim : String → Option Nat) (cid uuid uid : String)
    (hcid : cid ≠ "")
    (hu1 : uuid.data.length = 36)
    (hu2 : uuid.data.all isUuidChar = true) :
    (strTruthy (userIdOf b) = false →
      ∃ r, userIdOf (processRequestBody b (some { useUnifiedClientId := true, unifiedClientId := some cid }) false isRCC cfg lim uuid) = some r ∧
        matchesClaimedPattern r cid = true) ∧
    (userIdOf b = some uid → uid ≠ "" → userIdTailMatch uid.data ≠ none →
      ∃ r, userIdOf (processRequestBody b (some { useUnifiedClientId := true, unifiedClientId := some cid }) false isRCC cfg lim uuid) = some r ∧
        matchesClaimedPattern r cid = true) ∧
    (userIdOf b = some uid → uid ≠ "" → userIdTailMatch uid.data = none →
      userIdOf (processRequestBody b (some { useUnifiedClientId := true, unifiedClientId := some cid }) false isRCC cfg lim uuid) = some uid) := by
  have hmeta : (processRequestBody b (some { useUnifiedClientId := true, unifiedClientId := some cid }) false isRCC cfg lim uuid).metadata =
      some (replaceClientId b.metadata cid uuid) := by
    unfold processRequestBody
    simp only [if_false, Bool.false_eq_true, thinkingStep_metadata, clientIdStep_metadata,
      topPStep_metadata, configPromptStep_metadata, claudeCodeStep_metadata,
      stripTtlStep_metadata, validateMaxTokensStep_metadata, toolResultStep_metadata,
      securityTextStep_metadata, clearVariantFieldStep_metadata, variantSplitStep_metadata]
    simp [clientIdMeta, hcid]
  have hgen : matchesClaimedPattern (genUserId cid uuid) cid = true := by
    unfold matchesClaimedPattern genUserId
    exact matchesClaimedPatternData_append cid.data uuid.data hu1 hu2
  refine ⟨?_, ?_, ?_⟩
  · intro hfalsy
    refine ⟨genUserId cid uuid, ?_, hgen⟩
    unfold userIdOf at hfalsy ⊢
    rw [hmeta]
    cases hb : b.metadata with
    | none => simp [replaceClientId]
    | some meta =>
      rw [hb] at hfalsy
      have hmu : strTruthy meta.user_id = false := by simpa using hfalsy
      cases hu : meta.user_id with
      | none => simp [replaceClientId, hu]
      | some uidv =>
        rw [hu] at hmu
        have : uidv = "" := by simpa [strTruthy] using hmu
        subst this
        simp [replaceClientId, hu]
  · intro huid hne htail
    cases htm : userIdTailMatch uid.data with
    | none => exact absurd htm htail
    | some tail =>
      obtain ⟨t, hteq, ht1, ht2⟩ := userIdTailMatch_shape htm
      refine ⟨String.mk (("user_".data ++ cid.data) ++ tail), ?_, ?_⟩
      · unfold userIdOf at huid ⊢
        rw [hmeta]
        cases hb : b.metadata with
        | none => rw [hb] at huid; simp at huid
        | some meta =>
          rw [hb] at huid
          have hmu : meta.user_id = some uid := by simpa using huid
          simp [replaceClientId, hmu, hne, htm]
      · unfold matchesClaimedPattern
        have hdata : (String.mk (("user_".data ++ cid.data) ++ tail)).data =
            specUserIdPre cid.data ++ t := by
          rw [hteq]
          unfold specUserIdPre
          simp [List.append_assoc]
        rw [hdata]
        exact matchesClaimedPatternData_append cid.data t ht1 ht2
  · intro huid hne htail
    unfold userIdOf at huid ⊢
    rw [hmeta]
    cases hb : b.metadata with
    | none => rw [hb] at huid; simp at huid
    | some meta =>
      rw [hb] at huid
      have hmu : meta.user_id = some uid := by simpa using huid
      simp [replaceClientId, hmu, hne, htail]

/-- C4 witness: a fresh id generated for an absent `metadata.user_id`
matches the claimed pattern, via `C4_amended`. -/
theorem C4_witness :
    ∃ r, userIdOf (processRequestBody {} (some { useUnifiedClientId := true, unifiedClientId := some cid64 }) false true "" (fun _ => none) uuid0) = some r ∧
      matchesClaimedPattern r cid64 = true :=
  (C4_amended {} true "" (fun _ => none) cid64 uuid0 "x" (by decide) (by decide) (by decide)).1
    (by decide)

/- ===================== Claim C1 ===================== -/

/-- C1 counterexample: the claim says `usageCallback` fires exactly once for
every successful streaming request, but a stream that ends after a 2xx
response without any captured usage event (here: no SSE events at all)
invokes the callback zero times — the `end` handler only logs a warning. -/
theorem C1_counterexample :
    usageCallbackInvocations [] "claude-sonnet-4-20250514" = 0 := rfl

/-- C1 (amended): per streaming request `usageCallback` is invoked at most
once — exactly once when at least one usage record was captured and zero
times otherwise; when it is invoked, the merged record sums the
input/output/cache token fields over all captured records (absent fields
counting as 0) and takes `model` from the last captured record, falling
back to the request model; the non-2xx error path never invokes the
callback. -/
theorem C1_amended (events : List SSEEvent) (bodyModel : String) (u : FinalUsage)
    (lastRec : CurUsage) (status : Nat) (errBody : String) :
    usageCallbackInvocations events bodyModel ≤ 1 ∧
    (usageCallbackInvocations events bodyModel = 0 ↔ finishRecords (runStream events) = []) ∧
    (mergeUsage (finishRecords (runStream events)) bodyModel = some u →
      u.input_tokens = ((finishRecords (runStream events)).map (fun r => r.input_tokens.getD 0)).sum ∧
      u.output_tokens = ((finishRecords (runStream events)).map (fun r => r.output_tokens.getD 0)).sum ∧
      u.cache_creation_input_tokens =
        ((finishRecords (runStream events)).map (fun r => r.cache_creation_input_tokens.getD 0)).sum ∧
      u.cache_read_input_tokens =
        ((finishRecords (runStream events)).map (fun r => r.cache_read_input_tokens.getD 0)).sum ∧
      ((finishRecords (runStream events)).getLast? = some lastRec →
        u.model = jsOrStr lastRec.model bodyModel)) ∧
    (streamErrorEnd status errBody).usageEmitted = none := by
  refine ⟨?_, ?_, ?_, rfl⟩
  · unfold usageCallbackInvocations
    split <;> simp
  · unfold usageCallbackInvocations
    cases hl : (finishRecords (runStream events)).getLast? with
    | none =>
      have : finishRecords (runStream events) = [] := (getLast?_eq_none_iff _).mp hl
      simp [mergeUsage, hl, this]
    | some lr =>
      have : finishRecords (runStream events) ≠ [] := by
        intro hnil
        rw [hnil] at hl
        simp at hl
      simp [mergeUsage, hl, this]
  · intro hmerge
    unfold mergeUsage at hmerge
    cases hl : (finishRecords (runStream events)).getLast? with
    | none => rw [hl] at hmerge; simp at hmerge
    | some lr =>
      rw [hl] at hmerge
      have hu := (Option.some.inj hmerge).symm
      subst hu
      refine ⟨?_, ?_, ?_, ?_, ?_⟩
      · exact sumBy_eq_sum_map _ _
      · exact sumBy_eq_sum_map _ _
      · exact sumBy_eq_sum_map _ _
      · exact sumBy_eq_sum_map _ _
      · intro hlr
        have heq : lr = lastRec := Option.some.inj hlr
        rw [heq]

/-- C1 witness: the spec's usage-aggregation scenario (`message_start` with
input 10 / cache 5 / 2, a usage-free event, `message_delta` with output 42)
invokes the callback once with the summed record, via `C1_amended`. -/
theorem C1_witness :
    usageCallbackInvocations sc3Events "claude-sonnet-4-20250514" = 1 ∧
    sc3Usage.input_tokens =
      ((finishRecords (runStream sc3Events)).map (fun r => r.input_tokens.getD 0)).sum ∧
    sc3Usage.model = jsOrStr sc3Last.model "claude-sonnet-4-20250514" := by
  have h := C1_amended sc3Events "claude-sonnet-4-20250514" sc3Usage sc3Last 500 "err"
  refine ⟨by decide, ?_, ?_⟩
  · exact (h.2.2.1 (by decide)).1
  · exact (h.2.2.1 (by decide)).2.2.2.2 (by decide)

/- ===================== Claim C2 ===================== -/

/-- C2 counterexample: the claim says the rate-limit marking applies to
every non-2xx status including 5xx, but a 500 response whose body contains
"exceed your account's rate limit" takes the server-error branch and
`markAccountRateLimited` is not called. -/
theorem C2_counterexample :
    (relayClassify 500 (some 1700000000) c2Body true 0 false false none).markedRateLimited =
      none ∧
    bodyIndicatesRateLimit c2Body = true := by
  exact ⟨by decide, by decide⟩

/-- C2 (amended): for every non-200/201 response, `markAccountRateLimited`
is called exactly when the status is 429 (with `resetAt` from the
`anthropic-ratelimit-unified-reset` header when present, null otherwise) or
when the status is outside {401, 403} and outside 500-599 and the body
contains "exceed your account's rate limit" case-insensitively (then with
`resetAt` null); for 401, 403, 529 and the other 5xx statuses the
corresponding branch fires instead and no rate-limit marking happens. -/
theorem C2_amended (status : Nat) (resetHeader : Option Nat) (body : RespBody)
    (oe : Bool) (pc : Nat) (wrl wov : Bool) (swh : Option String)
    (h1 : status ≠ 200) (h2 : status ≠ 201) :
    (relayClassify status resetHeader body oe pc wrl wov swh).markedRateLimited =
      if status = 429 then some resetHeader
      else if status ≠ 401 ∧ status ≠ 403 ∧ ¬(500 ≤ status ∧ status < 600) ∧
          bodyIndicatesRateLimit body = true then some none
      else none := by
  unfold relayClassify
  rw [if_pos ⟨h1, h2⟩]
  split_ifs <;> first | rfl | omega | simp_all

/-- C2 witness: a 429 response with the reset header results in
`markAccountRateLimited` with `resetAt = 1700000000`, via `C2_amended`. -/
theorem C2_witness :
    (relayClassify 429 (some 1700000000) (RespBody.jsonError none) false 0 false false
        none).markedRateLimited = some (some 1700000000) :=
  (C2_amended 429 (some 1700000000) (RespBody.jsonError none) false 0 false false none
    (by decide) (by decide)).trans (by decide)

/- ===================== Claim C3 ===================== -/

/-- C3 counterexample: the claim says every 2xx status clears the counters
and flags, but a 204 response enters the non-2xx classification chain of
`relayRequest` and clears nothing, and a 201 final status of a stream also
clears nothing (the stream path tests for exactly 200). -/
theorem C3_counterexample :
    (relayClassify 204 none (RespBody.raw "") false 0 true true none).clearedUnauthorized =
      false ∧
    (streamEndClassify 201 false none none true true).clearedUnauthorized = false := by
  exact ⟨by decide, by decide⟩

/-- C3 (amended): in the non-streaming path the 401 counter and
internal-error counters are cleared, and the rate-limit / overload flags
removed (when set), exactly for the statuses 200 and 201; in the streaming
path exactly for final status 200 with no in-stream rate-limit detection;
other 2xx statuses clear nothing. -/
theorem C3_amended (status : Nat) (resetHeader : Option Nat) (body : RespBody)
    (oe : Bool) (pc : Nat) (wrl wov : Bool) (swh : Option String) (rld : Bool) :
    ((relayClassify status resetHeader body oe pc wrl wov swh).clearedUnauthorized = true ↔
      (status = 200 ∨ status = 201)) ∧
    ((relayClassify status resetHeader body oe pc wrl wov swh).clearedInternalErrors = true ↔
      (status = 200 ∨ status = 201)) ∧
    ((relayClassify status resetHeader body oe pc wrl wov swh).removedRateLimit = true ↔
      ((status = 200 ∨ status = 201) ∧ wrl = true)) ∧
    ((relayClassify status resetHeader body oe pc wrl wov swh).removedOverload = true ↔
      ((status = 200 ∨ status = 201) ∧ wov = true)) ∧
    ((streamEndClassify status rld resetHeader swh wrl wov).clearedUnauthorized = true ↔
      (status = 200 ∧ rld = false)) ∧
    ((streamEndClassify status rld resetHeader swh wrl wov).clearedInternalErrors = true ↔
      (status = 200 ∧ rld = false)) ∧
    ((streamEndClassify status rld resetHeader swh wrl wov).removedRateLimit = true ↔
      (status = 200 ∧ rld = false ∧ wrl = true)) ∧
    ((streamEndClassify status rld resetHeader swh wrl wov).removedOverload = true ↔
      (status = 200 ∧ rld = false ∧ wov = true)) := by
  have hrelay :
      ((relayClassify status resetHeader body oe pc wrl wov swh).clearedUnauthorized = true ↔
        (status = 200 ∨ status = 201)) ∧
      ((relayClassify status resetHeader body oe pc wrl wov swh).clearedInternalErrors = true ↔
        (status = 200 ∨ status = 201)) ∧
      ((relayClassify status resetHeader body oe pc wrl wov swh).removedRateLimit = true ↔
        ((status = 200 ∨ status = 201) ∧ wrl = true)) ∧
      ((relayClassify status resetHeader body oe pc wrl wov swh).removedOverload = true ↔
        ((status = 200 ∨ status = 201) ∧ wov = true)) := by
    unfold relayClassify
    split_ifs <;> simp_all
    omega
  have hstream :
      ((streamEndClassify status rld resetHeader swh wrl wov).clearedUnauthorized = true ↔
        (status = 200 ∧ rld = false)) ∧
      ((streamEndClassify status rld resetHeader swh wrl wov).clearedInternalErrors = true ↔
        (status = 200 ∧ rld = false)) ∧
      ((streamEndClassify status rld resetHeader swh wrl wov).removedRateLimit = true ↔
        (status = 200 ∧ rld = false ∧ wrl = true)) ∧
      ((streamEndClassify status rld resetHeader swh wrl wov).removedOverload = true ↔
        (status = 200 ∧ rld = false ∧ wov = true)) := by
    unfold streamEndClassify
    by_cases hrld : rld = true <;> split_ifs <;> simp_all
  exact ⟨hrelay.1, hrelay.2.1, hrelay.2.2.1, hrelay.2.2.2,
    hstream.1, hstream.2.1, hstream.2.2.1, hstream.2.2.2⟩

/- ===================== Claim C6 ===================== -/

/-- C6: for every model and every base / client beta string, the emitted
beta token list is a canonically-ordered selection from `FEATURE_ORDER`
followed by the admitted tokens outside the canonical list; and the
outbound request path ends with `?beta=true` exactly when an
`anthropic-beta` header is set (the base path, a URL pathname, does not end
with the suffix itself). -/
theorem C6_beta_order_and_path (model base client basePath : String) (isCountTokens : Bool)
    (hp : strEndsWith basePath "?beta=true" = false) :
    (∃ pre ext, orderedFeatures model base client isCountTokens = pre ++ ext ∧
        List.Sublist pre FEATURE_ORDER ∧
        ∀ x ∈ ext, FEATURE_ORDER.contains x = false) ∧
    (strEndsWith
        (makeRequestBeta basePath (buildBetaHeader model base client isCountTokens)).2
        "?beta=true" = true ↔
      (makeRequestBeta basePath (buildBetaHeader model base client isCountTokens)).1 ≠ none) := by
  constructor
  · refine ⟨_, _, rfl, List.filter_sublist _, ?_⟩
    intro x hx
    have := (List.mem_filter.mp hx).2
    simpa using this
  · cases hb : orderedFeatures model base client isCountTokens with
    | nil => simp [buildBetaHeader, hb, makeRequestBeta, hp]
    | cons y ys => simp [buildBetaHeader, hb, makeRequestBeta, strEndsWith_append]

/-- C6 witness: the default configuration tokens on a sonnet model, via
`C6_beta_order_and_path`. -/
theorem C6_witness :
    (∃ pre ext, orderedFeatures "claude-sonnet-4-20250514"
        "claude-code-20250219,oauth-2025-04-20,interleaved-thinking-2025-05-14,fine-grained-tool-streaming-2025-05-14"
        "" false = pre ++ ext ∧
        List.Sublist pre FEATURE_ORDER ∧
        ∀ x ∈ ext, FEATURE_ORDER.contains x = false) ∧
    (strEndsWith
        (makeRequestBeta "/v1/messages" (buildBetaHeader "claude-sonnet-4-20250514"
          "claude-code-20250219,oauth-2025-04-20,interleaved-thinking-2025-05-14,fine-grained-tool-streaming-2025-05-14"
          "" false)).2
        "?beta=true" = true ↔
      (makeRequestBeta "/v1/messages" (buildBetaHeader "claude-sonnet-4-20250514"
          "claude-code-20250219,oauth-2025-04-20,interleaved-thinking-2025-05-14,fine-grained-tool-streaming-2025-05-14"
          "" false)).1 ≠ none) :=
  C6_beta_order_and_path "claude-sonnet-4-20250514"
    "claude-code-20250219,oauth-2025-04-20,interleaved-thinking-2025-05-14,fine-grained-tool-streaming-2025-05-14"
    "" "/v1/messages" false (by decide)

/- ===================== Claim C8 ===================== -/

/-- C8: proxied session creation first issues the CONNECT request to the
proxy (so the CONNECT precedes any TLS step), carrying
`Proxy-Authorization: Basic base64(user:pass)` exactly when the proxy URL
has both a username and a password; a non-200 CONNECT answer destroys the
tunnel socket and fails session creation with an error, and a 200 answer
leads to a TLS connection over the tunnel with ALPN `h2` and SNI set to the
target hostname, to which the HTTP/2 session is attached.  The last
conjunct is the spec's concrete scenario: proxy `p:8080` with credentials
`u`/`p` yields `CONNECT api.anthropic.com:443` with
`Proxy-Authorization: Basic dTpw`. -/
theorem C8_proxy_connect (hostname : String) (targetPort : Option Nat)
    (proxyProtocol proxyHost : String) (proxyPort : Option Nat)
    (user pass : String) (status : Nat) :
    (∃ auth rest,
      (createSessionViaProxy hostname targetPort proxyProtocol proxyHost proxyPort user pass
          status).1 =
        ConnStep.connectRequest proxyHost
          (jsOrNat proxyPort (if proxyProtocol == "https:" then 443 else 80))
          (hostname ++ ":" ++ toString (jsOrNat targetPort 443))
          (hostname ++ ":" ++ toString (jsOrNat targetPort 443)) auth :: rest ∧
      auth = (if user ≠ "" ∧ pass ≠ "" then
        some ("Basic " ++ base64Encode (user ++ ":" ++ pass)) else none) ∧
      (status ≠ 200 → rest = [ConnStep.destroySocket] ∧
        (createSessionViaProxy hostname targetPort proxyProtocol proxyHost proxyPort user pass
            status).2 =
          Except.error ("Proxy CONNECT failed with status " ++ toString status)) ∧
      (status = 200 → rest = [ConnStep.tlsConnect hostname ["h2"], ConnStep.attachH2Session] ∧
        (createSessionViaProxy hostname targetPort proxyProtocol proxyHost proxyPort user pass
            status).2 = Except.ok ())) ∧
    (createSessionViaProxy "api.anthropic.com" none "http:" "p" (some 8080) "u" "p" 200).1 =
      [ConnStep.connectRequest "p" 8080 "api.anthropic.com:443" "api.anthropic.com:443"
        (some "Basic dTpw"),
       ConnStep.tlsConnect "api.anthropic.com" ["h2"], ConnStep.attachH2Session] := by
  constructor
  · by_cases h : status = 200
    · subst h
      refine ⟨_, [ConnStep.tlsConnect hostname ["h2"], ConnStep.attachH2Session],
        ?_, rfl, ?_, ?_⟩
      · simp [createSessionViaProxy]
      · intro hc; exact absurd rfl hc
      · intro _; exact ⟨rfl, by simp [createSessionViaProxy]⟩
    · refine ⟨_, [ConnStep.destroySocket], ?_, rfl, ?_, ?_⟩
      · simp [createSessionViaProxy, h]
      · intro _; exact ⟨rfl, by simp [createSessionViaProxy, h]⟩
      · intro hc; exact absurd hc h
  · decide

/- ===================== Claim C9 ===================== -/

/-- C9: `getSession` never returns a closed or destroyed session — a cached
entry is reused only when its session is neither closed nor destroyed, and
otherwise a fresh (open) session is created and stored under the same key;
both the lookup step and the eviction performed by the session's
error/goaway/close handlers preserve the pool invariants: at most one
entry per `host:port` key, each entry referring to the most recently
created session for its key; eviction removes the key from the pool. -/
theorem C9_session_pool (env : Nat → SessStatus) (st : PoolState) (host : String)
    (port : Option Nat) (now : Nat) (k : String)
    (hn : keysNodup st) (hmr : mostRecent st)
    (hfresh : (env st.nextId).closed = false ∧ (env st.nextId).destroyed = false) :
    ((env (getSession env st host port now).1).closed = false ∧
      (env (getSession env st host port now).1).destroyed = false) ∧
    keysNodup (getSession env st host port now).2 ∧
    mostRecent (getSession env st host port now).2 ∧
    lookupPool (evictKey st k).pool k = none ∧
    keysNodup (evictKey st k) ∧
    mostRecent (evictKey st k) := by
  have hev1 : lookupPool (evictKey st k).pool k = none := lookupPool_removePool st.pool k
  have hev2 : keysNodup (evictKey st k) :=
    (removePool_keys_sublist st.pool k).nodup hn
  have hev3 : mostRecent (evictKey st k) := by
    intro e he
    exact hmr e (removePool_mem he).1
  unfold getSession
  cases hl : lookupPool st.pool (sessionKeyOf host port) with
  | some e =>
    dsimp only
    by_cases hst : (env e.sessionId).closed = false ∧ (env e.sessionId).destroyed = false
    · rw [if_pos hst]
      refine ⟨hst, ?_, ?_, hev1, hev2, hev3⟩
      · unfold keysNodup
        have hkeys :
            ((st.pool.map (fun x =>
              if x.key = sessionKeyOf host port then { x with lastUsed := now } else x)).map
                PoolEntry.key) = st.pool.map PoolEntry.key := by
          rw [List.map_map]
          apply List.map_congr_left
          intro x _
          by_cases hxk : x.key = sessionKeyOf host port <;> simp [hxk]
        simpa [hkeys] using hn
      · intro e' he'
        obtain ⟨x, hx, hxe⟩ := List.mem_map.mp he'
        by_cases hxk : x.key = sessionKeyOf host port
        · rw [if_pos hxk] at hxe
          rw [← hxe]
          simpa using hmr x hx
        · rw [if_neg hxk] at hxe
          rw [← hxe]
          exact hmr x hx
    · rw [if_neg hst]
      refine ⟨hfresh, ?_, ?_, hev1, hev2, hev3⟩
      · exact createAndStore_nodup _ _ _ ((removePool_keys_sublist st.pool _).nodup hn)
      · refine createAndStore_mostRecent _ _ _ ?_
        intro x hx
        exact hmr x (removePool_mem hx).1
  | none =>
    exact ⟨hfresh, createAndStore_nodup _ _ _ hn, createAndStore_mostRecent _ _ _ hmr,
      hev1, hev2, hev3⟩

/-- C9 witness: `C9_session_pool` at the empty pool with an always-open
environment. -/
theorem C9_witness :
    ((env0 (getSession env0 st0 "api.anthropic.com" none 5).1).closed = false ∧
      (env0 (getSession env0 st0 "api.anthropic.com" none 5).1).destroyed = false) ∧
    keysNodup (getSession env0 st0 "api.anthropic.com" none 5).2 ∧
    mostRecent (getSession env0 st0 "api.anthropic.com" none 5).2 ∧
    lookupPool (evictKey st0 "k").pool "k" = none ∧
    keysNodup (evictKey st0 "k") ∧
    mostRecent (evictKey st0 "k") :=
  C9_session_pool env0 st0 "api.anthropic.com" none 5 "k"
    (by simp [keysNodup, st0])
    (by intro e he; simp [st0] at he)
    ⟨rfl, rfl⟩

/- ===================== Claim C10 ===================== -/

/-- C10: the proxy-agent cache key is `type://host:port:username` and omits
the password, so for two valid descriptors agreeing on type, host, port and
username but differing in password, the second `createProxyAgent` call is a
cache hit returning the identical agent created (from the first descriptor,
its password included) by the first call — the changed password has no
effect on the returned agent. -/
theorem C10_proxy_cache (p1 p2 : ProxyDesc)
    (ht : p1.ptype = p2.ptype) (hh : p1.host = p2.host) (hp : p1.port = p2.port)
    (hu : p1.username = p2.username)
    (hv : descTruthy p1 = true)
    (hk : p1.ptype = "socks5" ∨ p1.ptype = "http" ∨ p1.ptype = "https") :
    cacheKey p1 = cacheKey p2 ∧
    (createProxyAgent (createProxyAgent [] p1).2.1 p2).1 = (createProxyAgent [] p1).1 ∧
    (createProxyAgent (createProxyAgent [] p1).2.1 p2).2.2 = false ∧
    (createProxyAgent [] p1).1 = mkAgent p1 := by
  have hkey : cacheKey p1 = cacheKey p2 := by
    unfold cacheKey
    rw [ht, hh, hp, hu]
  have hv2 : descTruthy p2 = true := by
    unfold descTruthy at hv ⊢
    rw [← ht, ← hh, ← hp]
    exact hv
  have hmk : ∃ a, mkAgent p1 = some a := by
    cases hma : mkAgent p1 with
    | some a => exact ⟨a, rfl⟩
    | none =>
      exfalso
      unfold mkAgent at hma
      rcases hk with h | h | h <;> simp [h] at hma
  obtain ⟨a, ha⟩ := hmk
  refine ⟨hkey, ?_, ?_, ?_⟩ <;>
    simp [createProxyAgent, hv, hv2, ha, List.find?, hkey]

/-- C10 witness: two concrete HTTP proxy descriptors differing only in
password hit the same cache entry, via `C10_proxy_cache`. -/
theorem C10_witness :
    cacheKey p1d = cacheKey p2d ∧
    (createProxyAgent (createProxyAgent [] p1d).2.1 p2d).1 = (createProxyAgent [] p1d).1 ∧
    (createProxyAgent (createProxyAgent [] p1d).2.1 p2d).2.2 = false ∧
    (createProxyAgent [] p1d).1 = mkAgent p1d :=
  C10_proxy_cache p1d p2d rfl rfl rfl rfl (by decide) (Or.inr (Or.inl rfl))

end ClaudeRelay
